import Mathlib

/-!
Verification of the reconciliation core of the k8s-tui controller
(package `controller`): the deployment sync logic, the bounded-retry
error handler, the worker step, and the startup sequencing of `Run`.

The controller's own functions (`syncDeployment`, `deleteDeplotment`,
`castObjToDeployment`, `handleErr`, `processNextItem`, `Run`, and the
event handlers installed in `NewController`) are embedded directly from
the source. The client-go work queue and key function are external
collaborators; their contracts are modelled from the spec (sections 3
and 4.2) where the controller's behaviour depends on them.
-/

namespace K8sTui

/-- A deployment resource as the controller sees it: only the metadata
fields the controller code reads (`GetNamespace`, `GetName`). -/
structure Deployment where
  ns : String
  name : String
deriving DecidableEq, Repr

/-- `GetNamespace()` accessor of a deployment. -/
def Deployment.getNamespace (d : Deployment) : String := d.ns

/-- `GetName()` accessor of a deployment. -/
def Deployment.getName (d : Deployment) : String := d.name

/-- Errors produced by the controller code paths we embed. -/
inductive Err where
  /-- an error returned by `Indexer.GetByKey` -/
  | storeErr (msg : String)
  /-- `could not cast obj to deployment, failed to create accessor` -/
  | accessorErr (msg : String)
  /-- `could not cast obj ns/name (uid: u) to deployment` -/
  | castErr (ns name uid : String)
  /-- an error returned by the reconciliation business logic -/
  | reconcileErr (msg : String)
deriving DecidableEq, Repr

/-- A dynamically-typed event/store object (`interface\x7b\x7d` in the source).
Either an actual `*appsv1.Deployment`, some other object whose metadata
is still reachable through `meta.Accessor`, or an object with no
accessible metadata (so `meta.Accessor` fails). -/
inductive Obj where
  | deployment (d : Deployment)
  | withMeta (ns name uid : String)
  | noMeta
deriving DecidableEq, Repr

/-- `castObjToDeployment`: the type assertion `obj.(*appsv1.Deployment)`;
on failure it builds an error from `meta.Accessor`, which may itself
fail. -/
def castObjToDeployment : Obj → Except Err Deployment
  | .deployment d => .ok d
  | .withMeta ns name uid => .error (.castErr ns name uid)
  | .noMeta => .error (.accessorErr "object has no meta")

/-- Modelled from the spec: client-go's `cache.MetaNamespaceKeyFunc`
(external collaborator), per the spec's ResourceKey definition — the key
is derived deterministically from the namespace and name fields, of the
form namespace/name (just the name when the namespace is empty); it
fails when the object's metadata is not accessible. -/
def metaNamespaceKeyFunc : Obj → Except Err String
  | .deployment d =>
      .ok (if d.ns = "" then d.name else d.ns ++ "/" ++ d.name)
  | .withMeta ns name _ =>
      .ok (if ns = "" then name else ns ++ "/" ++ name)
  | .noMeta => .error (.accessorErr "object has no meta")

/-- Modelled from the spec: `cache.DeletionHandlingMetaNamespaceKeyFunc`
(external collaborator) computes the same key, from last-known metadata
when the resource was deleted. -/
def deletionHandlingMetaNamespaceKeyFunc : Obj → Except Err String :=
  metaNamespaceKeyFunc

/-- The `AddFunc` event handler installed in `NewController`: compute the
key and, only when that succeeded, pass the key (never the object) to
`queue.Add`. `none` means nothing is enqueued. -/
def addFunc (obj : Obj) : Option String :=
  match metaNamespaceKeyFunc obj with
  | .ok key => some key
  | .error _ => none

/-- The `UpdateFunc` event handler installed in `NewController`: keys the
new object; the old object is ignored. -/
def updateFunc (_old new : Obj) : Option String :=
  match metaNamespaceKeyFunc new with
  | .ok key => some key
  | .error _ => none

/-- The `DeleteFunc` event handler installed in `NewController`. -/
def deleteFunc (obj : Obj) : Option String :=
  match deletionHandlingMetaNamespaceKeyFunc obj with
  | .ok key => some key
  | .error _ => none

/-- The `CurrentDeployments` map, embedded as an association list with
Go-map lookup/assign/delete semantics. -/
abbrev CacheMap := List (String × Deployment)

/-- Go map read `m[k]`: the entry for `k`, if present. -/
def mapFind (m : CacheMap) (k : String) : Option Deployment :=
  match m.find? (fun p => p.1 = k) with
  | some p => some p.2
  | none => none

/-- Go map delete `delete(m, k)`: removes every binding of `k`. -/
def mapDelete (m : CacheMap) (k : String) : CacheMap :=
  m.filter (fun p => p.1 ≠ k)

/-- Go map assign `m[k] = d`: overwrites any existing binding of `k`. -/
def mapInsert (m : CacheMap) (k : String) (d : Deployment) : CacheMap :=
  (k, d) :: mapDelete m k

/-- The triple returned by `Indexer.GetByKey(key)`: `(obj, exists, err)`.
The indexer itself is an external collaborator (the Local Cache); the
controller only consumes this result. -/
structure GetByKeyResult where
  obj : Obj
  exs : Bool
  err : Option Err
deriving DecidableEq, Repr

/-- `deleteDeplotment`: the deletion path of the reconciler; removes the
key from `CurrentDeployments` and returns nil. -/
def deleteDeplotment (key : String) (cache : CacheMap) :
    Option Err × CacheMap :=
  (none, mapDelete cache key)

/-- `syncDeployment`: look the key up in the indexer; on a store error
return it; if the key is absent take the deletion path; otherwise cast
the stored object and record it in `CurrentDeployments` under
`GetNamespace() + "/" + GetName()`. Returns the error (if any) and the
resulting `CurrentDeployments`. -/
def syncDeployment (lookup : GetByKeyResult) (key : String)
    (cache : CacheMap) : Option Err × CacheMap :=
  match lookup.err with
  | some e => (some e, cache)
  | none =>
    if !lookup.exs then
      deleteDeplotment key cache
    else
      match castObjToDeployment lookup.obj with
      | .error e => (some e, cache)
      | .ok d =>
          (none, mapInsert cache (d.getNamespace ++ "/" ++ d.getName) d)

/-- The decision `handleErr` takes on the work queue. -/
inductive RetryDecision where
  /-- `queue.Forget(key)` (successful sync) -/
  | forget
  /-- `queue.AddRateLimited(key)` (retry) -/
  | addRateLimited
  /-- `queue.Forget(key)` then `runtime.HandleError(err)` (give up) -/
  | forgetAndReport
deriving DecidableEq, Repr

/-- `handleErr`: given the sync error and the key's current
`queue.NumRequeues` count, forget on success; retry (rate limited) while
the requeue count is below 5; otherwise forget and report the error to
the external error sink. -/
def handleErr (err : Option Err) (numRequeues : Nat) : RetryDecision :=
  match err with
  | none => .forget
  | some _ =>
    if numRequeues < 5 then .addRateLimited else .forgetAndReport

/-- The effect of one `handleErr` decision on the queue's per-key retry
state, plus whether the key was requeued and whether the error was
surfaced to the external error-reporting sink. -/
structure QueueEffect where
  retries : Nat
  requeued : Bool
  reported : Bool
deriving DecidableEq, Repr

/-- Modelled from the spec: the work queue's retry bookkeeping (section
4.2, external collaborator client-go workqueue): `AddRateLimited`
re-adds the key and increments its retry count; `Forget` resets the
key's retry count to zero; `runtime.HandleError` surfaces the error. -/
def applyDecision (d : RetryDecision) (retries : Nat) : QueueEffect :=
  match d with
  | .forget => ⟨0, false, false⟩
  | .addRateLimited => ⟨retries + 1, true, false⟩
  | .forgetAndReport => ⟨0, false, true⟩

/-- One invocation of `handleErr` together with its effect on the
queue's retry state for the key. -/
def handleErrStep (err : Option Err) (retries : Nat) : QueueEffect :=
  applyDecision (handleErr err retries) retries

/-- The key's `NumRequeues` count after `k` consecutive failing
reconciliations (each handled by `handleErr`), starting from a fresh
key (count 0). -/
def retriesAfterFails (e : Err) : Nat → Nat
  | 0 => 0
  | k + 1 => (handleErrStep (some e) (retriesAfterFails e k)).retries

/-- Whether the `(k+1)`-th consecutive failure (0-indexed `k`) causes a
requeue. -/
def requeuedOnFailure (e : Err) (k : Nat) : Bool :=
  (handleErrStep (some e) (retriesAfterFails e k)).requeued

/-- An operation the worker step performs on the work queue. -/
inductive QueueOp where
  | done (key : String)
  | add (key : String)
  | addRateLimited (key : String)
  | forgetOp (key : String)
deriving DecidableEq, Repr

/-- The result of `queue.Get()`: either the shutdown signal or a key
(marked in-flight). -/
inductive GetResult where
  | shutdown
  | item (key : String)
deriving DecidableEq, Repr

/-- How one invocation of the business logic ends: normally without
error, normally with an error, or by a panic-equivalent fault (the
body aborts, but deferred calls still run). -/
inductive SyncOutcome where
  | ok
  | failed (e : Err)
  | fault
deriving DecidableEq, Repr

/-- The queue operations `handleErr` performs for a given error and
requeue count. -/
def handleErrOps (err : Option Err) (key : String) (numRequeues : Nat) :
    List QueueOp :=
  match handleErr err numRequeues with
  | .forget => [.forgetOp key]
  | .addRateLimited => [.addRateLimited key]
  | .forgetAndReport => [.forgetOp key]

/-- `processNextItem`: `Get` a key (return false on shutdown); defer
`Done(key)`; run `syncDeployment`; hand the outcome to `handleErr`;
return true. The result is the function's return value (`none` when the
body faulted and never returned normally — Go's `defer` still runs
`Done` during unwinding) and the queue operations performed after
`Get`. -/
def processNextItem (g : GetResult) (outcome : SyncOutcome)
    (numRequeues : Nat) : Option Bool × List QueueOp :=
  match g with
  | .shutdown => (some false, [])
  | .item key =>
    match outcome with
    | .ok => (some true, handleErrOps none key numRequeues ++ [.done key])
    | .failed e =>
        (some true, handleErrOps (some e) key numRequeues ++ [.done key])
    | .fault => (none, [.done key])

/-- An observable step in the startup sequence of `Run`. -/
inductive RunEvent where
  /-- `go c.Informer.Run(stopCh)` -/
  | startInformer
  /-- `cache.WaitForCacheSync` returned true -/
  | cacheSyncSucceeded
  /-- `runtime.HandleError("timed out waiting for caches to sync")` -/
  | reportSyncTimeout
  /-- `go wait.Until(c.RunWorker, ...)`: the worker loop (the only queue
  consumer) starts -/
  | startWorkerLoop
  /-- deferred `c.queue.ShutDown()` -/
  | shutDownQueue
deriving DecidableEq, Repr

/-- The sequence of startup events `Run` performs, as a function of
whether `cache.WaitForCacheSync(stopCh, c.Informer.HasSynced)` reported
success. On failure `Run` reports the timeout and returns (running its
deferred queue shutdown) without ever starting the worker loop; on
success it starts the worker loop after the sync barrier and blocks on
`stopCh` until shutdown. -/
def run (synced : Bool) : List RunEvent :=
  if synced then
    [.startInformer, .cacheSyncSucceeded, .startWorkerLoop,
     .shutDownQueue]
  else
    [.startInformer, .reportSyncTimeout, .shutDownQueue]

/-- Looking a key up after deleting it finds nothing, whatever the map
held before. -/
theorem mapFind_mapDelete (m : CacheMap) (k : String) :
    mapFind (mapDelete m k) k = none := by
  induction m with
  | nil => rfl
  | cons p m ih =>
    by_cases h : p.1 = k <;>
      simp [mapDelete, mapFind, List.filter_cons, h] at ih ⊢ <;>
      simpa [mapDelete, mapFind] using ih

/-- C1: for a failing reconciliation, `handleErr` requeues via
`AddRateLimited` exactly when the key's requeue count is below 5 and
otherwise forgets the key and surfaces the error; a key failing on every
attempt is requeued on exactly 5 of its first 6 failures, the 6th
consecutive failure triggers no requeue, and every reconciliation error
results in a requeue or a surfaced report. -/
theorem handleErr_bounded_retry (e : Err) (n : Nat) :
    handleErr (some e) n =
      (if n < 5 then RetryDecision.addRateLimited
       else RetryDecision.forgetAndReport) ∧
    (List.range 6).countP (fun k => requeuedOnFailure e k) = 5 ∧
    requeuedOnFailure e 5 = false ∧
    ((handleErrStep (some e) n).requeued = true ∨
      (handleErrStep (some e) n).reported = true) := by
  refine ⟨rfl, rfl, rfl, ?_⟩
  by_cases h : n < 5 <;>
    simp [handleErrStep, handleErr, applyDecision, h]

/-- C2: on a nil error `handleErr` forgets the key, which resets its
retry count to 0 — even after N prior failures — so the next failure is
decided at requeue count 0 and is requeued as attempt 1. -/
theorem handleErr_success_resets (e : Err) (N : Nat) :
    handleErr none N = RetryDecision.forget ∧
    (handleErrStep none (retriesAfterFails e N)).retries = 0 ∧
    handleErr (some e) 0 = RetryDecision.addRateLimited ∧
    handleErrStep (some e) 0 = ⟨1, true, false⟩ :=
  ⟨rfl, rfl, rfl, rfl⟩

/-- C3: every successful `Get` (one returning a key, not the shutdown
signal) is followed by exactly one `Done` for that key on every exit
path of `processNextItem` — success, reconciliation error, or fault —
and a shutdown `Get` performs no queue operation at all. -/
theorem processNextItem_done_once (key : String) (outcome : SyncOutcome)
    (n : Nat) :
    ((processNextItem (.item key) outcome n).2.countP
      (fun op => op = QueueOp.done key)) = 1 ∧
    (processNextItem .shutdown outcome n).2 = [] := by
  constructor
  · cases outcome <;>
      [skip; by_cases h : n < 5; skip] <;>
      simp [processNextItem, handleErrOps, handleErr, *]
  · rfl

/-- C4: for a key absent from the Local Cache (store reports
exists = false with no error), `syncDeployment` takes the deletion path,
which returns no error, and afterwards `CurrentDeployments` has no entry
for that key. -/
theorem syncDeployment_absent (obj : Obj) (key : String)
    (cache : CacheMap) :
    syncDeployment ⟨obj, false, none⟩ key cache =
      deleteDeplotment key cache ∧
    (deleteDeplotment key cache).1 = none ∧
    mapFind (deleteDeplotment key cache).2 key = none :=
  ⟨rfl, rfl, mapFind_mapDelete cache key⟩

/-- C5: `Run` starts the worker loop — the only consumer of queue
items — only when the cache-sync barrier reported success, and the sync
success strictly precedes the worker start; when synchronization fails
(times out), `Run` reports the synchronization-timeout error and
aborts startup without ever starting the worker loop. -/
theorem run_sync_barrier (synced : Bool) :
    (RunEvent.startWorkerLoop ∈ run synced → synced = true) ∧
    (synced = false →
      RunEvent.reportSyncTimeout ∈ run synced ∧
      RunEvent.startWorkerLoop ∉ run synced) ∧
    (run true).indexOf RunEvent.cacheSyncSucceeded <
      (run true).indexOf RunEvent.startWorkerLoop := by
  cases synced <;> refine ⟨?_, ?_, by decide⟩ <;> intro h <;>
    simp_all [run]

theorem run_sync_barrier_witness :
    RunEvent.startWorkerLoop ∈ run true ∧ true = true :=
  ⟨by decide, (run_sync_barrier true).1 (by decide)⟩

/-- C6 counterexample: an event object that is not a `Deployment` (but
has accessible metadata) is not rejected at the Watcher boundary — the
add handler enqueues its key — and the type-mismatch error surfaces
inside the reconciliation path: `syncDeployment` returns the cast error
produced by `castObjToDeployment`. -/
theorem cast_error_reaches_reconciliation_cex :
    addFunc (Obj.withMeta "ns" "a" "uid1") = some "ns/a" ∧
    (syncDeployment ⟨Obj.withMeta "ns" "a" "uid1", true, none⟩ "ns/a"
      []).1 = some (Err.castErr "ns" "a" "uid1") :=
  ⟨rfl, rfl⟩

/-- C6 (amended): type mismatches are not caught at the Watcher
boundary: the event handlers enqueue the computed key for any object
with accessible metadata, and an object that cannot be cast to a
`Deployment` produces its cast error inside the reconciliation step
(`syncDeployment` via `castObjToDeployment`), leaving the cache
unchanged, with the error handed to the retry policy. -/
theorem cast_error_surfaces_in_sync (ns name uid key : String)
    (cache : CacheMap) :
    addFunc (Obj.withMeta ns name uid) =
      some (if ns = "" then name else ns ++ "/" ++ name) ∧
    syncDeployment ⟨Obj.withMeta ns name uid, true, none⟩ key cache =
      (some (Err.castErr ns name uid), cache) :=
  ⟨rfl, rfl⟩

/-- C7: the event handlers pass only the computed key to the queue —
whenever a handler enqueues `key`, `key` is exactly the output of the
(deletion-handling) meta-namespace key function on the event object —
and the state `syncDeployment` records in `CurrentDeployments` is the
object returned by the store lookup for the key, not any event
payload. -/
theorem handlers_enqueue_key_sync_reads_cache :
    (∀ obj key, addFunc obj = some key →
      metaNamespaceKeyFunc obj = .ok key) ∧
    (∀ old new key, updateFunc old new = some key →
      metaNamespaceKeyFunc new = .ok key) ∧
    (∀ obj key, deleteFunc obj = some key →
      deletionHandlingMetaNamespaceKeyFunc obj = .ok key) ∧
    (∀ key cache (d : Deployment),
      syncDeployment ⟨.deployment d, true, none⟩ key cache =
        (none, mapInsert cache (d.getNamespace ++ "/" ++ d.getName) d)) := by
  refine ⟨?_, ?_, ?_, fun _ _ _ => rfl⟩
  · intro obj key h
    unfold addFunc at h
    split at h <;> simp_all
  · intro old new key h
    unfold updateFunc at h
    split at h <;> simp_all
  · intro obj key h
    unfold deleteFunc at h
    unfold deletionHandlingMetaNamespaceKeyFunc at h ⊢
    split at h <;> simp_all

theorem handlers_enqueue_key_sync_reads_cache_witness :
    metaNamespaceKeyFunc (Obj.deployment ⟨"ns", "a"⟩) = .ok "ns/a" :=
  handlers_enqueue_key_sync_reads_cache.1
    (Obj.deployment ⟨"ns", "a"⟩) "ns/a" (by decide)

/-- C8: a reconciliation error never terminates the worker loop — the
step returns true for every key and every error — and the step reports
false exactly when `Get` returned the queue's shutdown signal. -/
theorem worker_loop_survives_errors (key : String) (e : Err)
    (g : GetResult) (outcome : SyncOutcome) (n m : Nat) :
    (processNextItem (.item key) (.failed e) n).1 = some true ∧
    ((processNextItem g outcome m).1 = some false ↔ g = .shutdown) := by
  refine ⟨rfl, ?_⟩
  cases g <;> cases outcome <;> simp [processNextItem]

theorem worker_loop_survives_errors_witness :
    GetResult.shutdown = GetResult.shutdown :=
  (worker_loop_survives_errors "k" (.reconcileErr "boom")
    GetResult.shutdown .ok 0 0).2.mp (by decide)

/-- C9: for a deployment with a non-empty namespace, the key under
which `syncDeployment` stores the snapshot (namespace ++ "/" ++ name)
equals the queue key the event handlers compute, so deleting by the
queue key removes exactly the entry that a prior sync inserted:
store-then-delete round-trips to no entry. -/
theorem sync_key_matches_queue_key (d : Deployment) (m : CacheMap)
    (h : d.ns ≠ "") :
    metaNamespaceKeyFunc (Obj.deployment d) =
      .ok (d.getNamespace ++ "/" ++ d.getName) ∧
    syncDeployment ⟨.deployment d, true, none⟩
        (d.getNamespace ++ "/" ++ d.getName) m =
      (none, mapInsert m (d.getNamespace ++ "/" ++ d.getName) d) ∧
    mapFind
      (deleteDeplotment (d.getNamespace ++ "/" ++ d.getName)
        (mapInsert m (d.getNamespace ++ "/" ++ d.getName) d)).2
      (d.getNamespace ++ "/" ++ d.getName) = none := by
  refine ⟨?_, rfl, mapFind_mapDelete _ _⟩
  simp [metaNamespaceKeyFunc, Deployment.getNamespace,
    Deployment.getName, h]

theorem sync_key_matches_queue_key_witness :
    metaNamespaceKeyFunc (Obj.deployment ⟨"ns", "a"⟩) = .ok "ns/a" ∧
    mapFind (deleteDeplotment "ns/a" (mapInsert [] "ns/a" ⟨"ns", "a"⟩)).2
      "ns/a" = none :=
  ⟨(sync_key_matches_queue_key ⟨"ns", "a"⟩ [] (by decide)).1,
   (sync_key_matches_queue_key ⟨"ns", "a"⟩ [] (by decide)).2.2⟩

/-- C10: whenever `syncDeployment` returns a non-nil error (store
lookup failure or failed cast), `CurrentDeployments` is returned
completely unchanged. -/
theorem syncDeployment_error_preserves_cache (lookup : GetByKeyResult)
    (key : String) (cache : CacheMap) (e : Err)
    (h : (syncDeployment lookup key cache).1 = some e) :
    (syncDeployment lookup key cache).2 = cache := by
  rcases lookup with ⟨obj, exs, err⟩
  cases err with
  | some e2 => rfl
  | none =>
    cases exs with
    | false => simp [syncDeployment, deleteDeplotment] at h
    | true =>
      cases hc : castObjToDeployment obj <;>
        simp [syncDeployment, hc] at h ⊢

theorem syncDeployment_error_preserves_cache_witness :
    (syncDeployment ⟨Obj.noMeta, true, none⟩ "k" []).2 = [] :=
  syncDeployment_error_preserves_cache ⟨Obj.noMeta, true, none⟩ "k" []
    (.accessorErr "object has no meta") (by decide)

end K8sTui
